import Mathlib

/-!
Verification of osgEarth's tile data-resolution and fallback engine:
`MapFrame::isCached` (src/osgEarth/MapFrame.cpp) and
`TileBuilder::getDataProfile`, `TileBuilder::isValid`,
`TileBuilder::createValidImage`, `TileBuilder::createValidHeightField`
(src/osgEarth/TileBuilder.cpp), over a shallow embedding of the relevant
data model.  Types that live outside the two provided translation units
(`TileKey`, `HeightFieldExtractor`) are modelled from the specification and
say so in their doc comments; everything else is translated from the C++
source.
-/

namespace OsgEarth

/-- Modelled from the spec: a `TileKey` is a quad-tree address
(level, column, row); the `TileKey` class itself is not part of the two
provided source files. -/
structure TileKey where
  level : Nat
  col : Nat
  row : Nat
deriving DecidableEq, Repr

/-- Modelled from the spec: `TileKey::createParentKey` produces the unique
ancestor one level up (quad-tree addressing halves the column and the row),
or an absent result at level 0 (the root has no parent). -/
def TileKey.createParentKey (k : TileKey) : Option TileKey :=
  if k.level = 0 then none else some ⟨k.level - 1, k.col / 2, k.row / 2⟩

/-- Cache policy of a layer: `osgEarth::CachePolicy` usage values. -/
inductive CachePolicy where
  | cacheDisabled
  | cacheOnly
  | normal
deriving DecidableEq, Repr

/-- `CachePolicy::isCacheOnly`. -/
def CachePolicy.isCacheOnly : CachePolicy → Bool
  | .cacheOnly => true
  | _ => false

/-- `CachePolicy::isCacheDisabled`. -/
def CachePolicy.isCacheDisabled : CachePolicy → Bool
  | .cacheDisabled => true
  | _ => false

/-- The blacklist of previously failed keys attached to a tile source
(`TileSource::getBlacklist`), exposed only through membership. -/
structure Blacklist where
  contains : TileKey → Bool

/-- The live tile source backing a terrain layer, as seen by
`MapFrame::isCached`: only its blacklist is consulted. -/
structure LayerTileSource where
  blacklist : Blacklist

/-- A `TerrainLayer` as consulted by `MapFrame::isCached`: enabled flag,
cache policy, coverage check, optional live tile source and the layer's own
cache-presence check. -/
structure TerrainLayer where
  enabled : Bool
  cachePolicy : CachePolicy
  mayHaveData : TileKey → Bool
  tileSource : Option LayerTileSource
  isCached : TileKey → Bool

/-- A layer of the map frame's layer vector.  `MapFrame::isCached` only
looks at layers that `dynamic_cast` to `TerrainLayer*`; any other layer is
silently skipped. -/
inductive MapLayer where
  | terrain (layer : TerrainLayer)
  | other

/-- The layer loop of `MapFrame::isCached` (MapFrame.cpp lines 242-275),
translated clause for clause:
disabled, cache-only, cache-disabled, coverage, live source, blacklist,
cache presence, in the source's order. -/
def isCachedLoop (key : TileKey) : List MapLayer → Bool
  | [] => true
  | MapLayer.other :: rest => isCachedLoop key rest
  | MapLayer.terrain layer :: rest =>
    if !layer.enabled then isCachedLoop key rest
    else if layer.cachePolicy.isCacheOnly then isCachedLoop key rest
    else if layer.cachePolicy.isCacheDisabled then false
    else if !layer.mayHaveData key then isCachedLoop key rest
    else
      match layer.tileSource with
      | none => isCachedLoop key rest
      | some source =>
        if source.blacklist.contains key then isCachedLoop key rest
        else if !layer.isCached key then false
        else isCachedLoop key rest

/-- The state of a `MapFrame` relevant to `isCached`: whether the observed
map pointer can still be locked, whether the locked map has a map-level
cache object, and the frame's layer vector. -/
structure MapFrame where
  mapAlive : Bool
  mapHasCache : Bool
  layers : List MapLayer

/-- `MapFrame::isCached` (MapFrame.cpp lines 234-276): first the map-level
cache guard (`_map.lock(map) && map->getCache() == 0L` returns `false`
immediately), then the per-layer loop. -/
def MapFrame.isCached (f : MapFrame) (key : TileKey) : Bool :=
  if f.mapAlive && !f.mapHasCache then false
  else isCachedLoop key f.layers

/-- The per-layer verdict stated by the specification's rules (1)-(7), in
the claim's order; `true` means the layer does not force the verdict
`false` (rules 1, 2, 4, 5, 6 skip; rule 3 forces `false`; rule 7 consults
the layer's cache-presence check). -/
def layerRuleVerdict (key : TileKey) (layer : TerrainLayer) : Bool :=
  if !layer.enabled then true
  else if layer.cachePolicy.isCacheOnly then true
  else if layer.cachePolicy.isCacheDisabled then false
  else if !layer.mayHaveData key then true
  else
    match layer.tileSource with
    | none => true
    | some source =>
      if source.blacklist.contains key then true
      else layer.isCached key

/-- Extension of the per-layer verdict to arbitrary map layers: a layer
that is not a terrain layer never affects the verdict. -/
def mapLayerVerdict (key : TileKey) : MapLayer → Bool
  | MapLayer.terrain layer => layerRuleVerdict key layer
  | MapLayer.other => true

/-- `TileGridProfile::ProfileType` (modelled from the spec's
`SpatialProfile`: the profile class is outside the provided sources, and
`TileBuilder::getDataProfile` only consults equality and the profile
type). -/
inductive ProfileType where
  | UNKNOWN
  | GLOBAL_GEODETIC
  | GLOBAL_MERCATOR
  | PROJECTED
deriving DecidableEq, Repr

/-- An image raster; its content is irrelevant to the claims, only its
identity. -/
structure Image where
  id : Nat
deriving DecidableEq, Repr

/-- An elevation raster (`osg::HeightField`): column and row counts plus a
sample function. -/
structure HeightField where
  numColumns : Nat
  numRows : Nat
  sample : Nat → Nat → Int

/-- A `TileSource` as consulted by `TileBuilder`: name, advertised profile,
and the two production capabilities (`createImage`, `createHeightField`),
each returning an absent result on failure. -/
structure TileSource where
  name : String
  profile : ProfileType
  createImage : TileKey → Option Image
  createHeightField : TileKey → Option HeightField

/-- The first loop of `TileBuilder::getDataProfile` (TileBuilder.cpp lines
117-142) over `image_sources`: an UNKNOWN running profile is seeded from
the current source (which is kept); a source whose profile differs from
the running profile is erased unless the running profile is
GLOBAL_GEODETIC and the source's is GLOBAL_MERCATOR; the running profile
is never changed on a mismatch.  Returns the final profile and the
retained sources. -/
def reconcileImageSources : ProfileType → List TileSource → ProfileType × List TileSource
  | p, [] => (p, [])
  | p, s :: rest =>
    if p = ProfileType.UNKNOWN then
      let r := reconcileImageSources s.profile rest
      (r.1, s :: r.2)
    else if p ≠ s.profile ∧
        ¬(p = ProfileType.GLOBAL_GEODETIC ∧ s.profile = ProfileType.GLOBAL_MERCATOR) then
      reconcileImageSources p rest
    else
      let r := reconcileImageSources p rest
      (r.1, s :: r.2)

/-- The second loop of `TileBuilder::getDataProfile` (TileBuilder.cpp lines
144-163) over `heightfield_sources`: same as the image loop but with no
geodetic/mercator exception — any source whose profile differs from the
running profile is erased. -/
def reconcileHeightFieldSources : ProfileType → List TileSource → ProfileType × List TileSource
  | p, [] => (p, [])
  | p, s :: rest =>
    if p = ProfileType.UNKNOWN then
      let r := reconcileHeightFieldSources s.profile rest
      (r.1, s :: r.2)
    else if p ≠ s.profile then
      reconcileHeightFieldSources p rest
    else
      let r := reconcileHeightFieldSources p rest
      (r.1, s :: r.2)

/-- The state of a `TileBuilder` relevant to the claims: the two source
lists, the current `_dataProfile` (UNKNOWN after construction unless the
MapConfig override set it), the `_profileComputed` memo flag, and whether
the map demands geocentric rendering
(`MapConfig::CSTYPE_GEOCENTRIC`). -/
structure TileBuilder where
  image_sources : List TileSource
  heightfield_sources : List TileSource
  dataProfile : ProfileType
  profileComputed : Bool
  mapGeocentric : Bool

/-- `TileBuilder::getDataProfile` (TileBuilder.cpp lines 113-168): if not
yet computed, run the image-source loop then the heightfield-source loop,
memoize, and return the resulting profile together with the mutated
builder. -/
def TileBuilder.getDataProfile (b : TileBuilder) : ProfileType × TileBuilder :=
  if b.profileComputed then (b.dataProfile, b)
  else
    let ri := reconcileImageSources b.dataProfile b.image_sources
    let rh := reconcileHeightFieldSources ri.1 b.heightfield_sources
    (rh.1,
      { b with
        image_sources := ri.2
        heightfield_sources := rh.2
        dataProfile := rh.1
        profileComputed := true })

/-- `TileBuilder::isValid` (TileBuilder.cpp lines 301-326): no sources at
all, a PROJECTED profile under a geocentric map, or an UNKNOWN profile
each invalidate the builder. -/
def TileBuilder.isValid (b : TileBuilder) : Bool :=
  if b.image_sources.length = 0 ∧ b.heightfield_sources.length = 0 then false
  else if (b.getDataProfile).1 = ProfileType.PROJECTED ∧ b.mapGeocentric = true then false
  else if (b.getDataProfile).1 = ProfileType.UNKNOWN then false
  else true

/-- The parent-walk loop shared by `TileBuilder::createValidImage` (lines
457-462) and `TileBuilder::createValidHeightField` (lines 427-432): try
the producer at the current key, stop at the first success (returning the
raster together with the key that produced it), otherwise move to the
parent key; give up when there is no parent. -/
def walkParents {α : Type} (f : TileKey → Option α) (k : TileKey) : Option (α × TileKey) :=
  match f k with
  | some v => some (v, k)
  | none =>
    match h : k.createParentKey with
    | some p => walkParents f p
    | none => none
termination_by k.level
decreasing_by
  unfold TileKey.createParentKey at h
  by_cases hl : k.level = 0
  · simp [hl] at h
  · simp only [hl, if_false] at h
    cases h
    show k.level - 1 < k.level
    omega

/-- `TileBuilder::createValidImage` (TileBuilder.cpp lines 445-472), pure
view: attempt direct production at the requested key; on failure walk the
parent chain; on success return the image paired with the key that
produced it. -/
def TileBuilder.createValidImage (tileSource : TileSource) (key : TileKey) :
    Option (Image × TileKey) :=
  match tileSource.createImage key with
  | some image => some (image, key)
  | none =>
    match key.createParentKey with
    | some pk => walkParents tileSource.createImage pk
    | none => none

/-- Modelled from the spec: `HeightFieldExtractor::extractChild` (the
extractor class is outside the provided sources) crops the sub-region of
the ancestor raster corresponding to the descendant key — a footprint
computed purely from the two keys' level/column/row arithmetic — and
resamples it to exactly the requested output dimensions (nearest-neighbour
sampling stands in for the configurable interpolation). -/
def HeightFieldExtractor.extractChild (ancestorKey : TileKey) (ancestor : HeightField)
    (targetKey : TileKey) (width height : Nat) : HeightField :=
  let dl := targetKey.level - ancestorKey.level
  let relCol := targetKey.col - ancestorKey.col * 2 ^ dl
  let relRow := targetKey.row - ancestorKey.row * 2 ^ dl
  { numColumns := width
    numRows := height
    sample := fun c r =>
      ancestor.sample
        (((relCol * width + c) * ancestor.numColumns) / max (width * 2 ^ dl) 1)
        (((relRow * height + r) * ancestor.numRows) / max (height * 2 ^ dl) 1) }

/-- `TileBuilder::createValidHeightField` (TileBuilder.cpp lines 414-443):
attempt direct production at the requested key; on failure walk the parent
chain, and on an ancestor hit extract the requested key's sub-region at
the found raster's own column and row counts.  A direct hit is returned
unmodified. -/
def TileBuilder.createValidHeightField (tileSource : TileSource) (key : TileKey) :
    Option HeightField :=
  match tileSource.createHeightField key with
  | some hf => some hf
  | none =>
    match key.createParentKey with
    | some pk =>
      match walkParents tileSource.createHeightField pk with
      | some (hf, hfKey) =>
        some (HeightFieldExtractor.extractChild hfKey hf key hf.numColumns hf.numRows)
      | none => none
    | none => none

/-- `TileBuilder::createValidImage` with its C++ out-parameter semantics:
the caller-supplied `ImageTileKeyPair` is returned unchanged when the
function returns `false`, and overwritten with the resolved image and
producing key exactly when it returns `true` (TileBuilder.cpp lines
465-471). -/
def TileBuilder.createValidImageRef (tileSource : TileSource) (key : TileKey)
    (imageTile : Image × TileKey) : Bool × (Image × TileKey) :=
  match tileSource.createImage key with
  | some image => (true, (image, key))
  | none =>
    match key.createParentKey with
    | some pk =>
      match walkParents tileSource.createImage pk with
      | some (image, imageKey) => (true, (image, imageKey))
      | none => (false, imageTile)
    | none => (false, imageTile)

/-- The requested key followed by its proper ancestors, up to and
including the root: the exact sequence of keys the fallback walk visits. -/
def ancestorChain (k : TileKey) : List TileKey :=
  match h : k.createParentKey with
  | some p => k :: ancestorChain p
  | none => [k]
termination_by k.level
decreasing_by
  unfold TileKey.createParentKey at h
  by_cases hl : k.level = 0
  · simp [hl] at h
  · simp only [hl, if_false] at h
    cases h
    show k.level - 1 < k.level
    omega

/-- First success of a producer along a list of keys, paired with the key
that produced it — the specification's words for the fallback walk. -/
def firstSuccess {α : Type} (f : TileKey → Option α) : List TileKey → Option (α × TileKey)
  | [] => none
  | k :: rest =>
    match f k with
    | some v => some (v, k)
    | none => firstSuccess f rest

/-- `n`-fold iteration of `createParentKey`, absent once the chain runs
out. -/
def iterParent : Nat → Option TileKey → Option TileKey
  | 0, ok => ok
  | n + 1, ok => iterParent n (ok.bind TileKey.createParentKey)

/-- A concrete level-2 key used by the witnesses. -/
def keyA : TileKey := ⟨2, 1, 3⟩

/-- A terrain layer that passes every rule: enabled, normal policy, data
possible everywhere, live source, nothing blacklisted, everything
cached. -/
def layerGood : TerrainLayer :=
  { enabled := true
    cachePolicy := CachePolicy.normal
    mayHaveData := fun _ => true
    tileSource := some { blacklist := { contains := fun _ => false } }
    isCached := fun _ => true }

/-- A disabled terrain layer. -/
def layerDisabledOnly : TerrainLayer :=
  { enabled := false
    cachePolicy := CachePolicy.normal
    mayHaveData := fun _ => true
    tileSource := none
    isCached := fun _ => false }

/-- An enabled terrain layer whose cache policy is cache-disabled. -/
def layerNoCache : TerrainLayer :=
  { enabled := true
    cachePolicy := CachePolicy.cacheDisabled
    mayHaveData := fun _ => true
    tileSource := some { blacklist := { contains := fun _ => false } }
    isCached := fun _ => true }

/-- A concrete image raster used by the witnesses. -/
def imgA : Image := ⟨7⟩

/-- A concrete 4x4 elevation raster used by the witnesses. -/
def hfA : HeightField := ⟨4, 4, fun _ _ => 0⟩

/-- A geodetic tile source that produces nothing. -/
def srcGeo : TileSource :=
  { name := "geo"
    profile := ProfileType.GLOBAL_GEODETIC
    createImage := fun _ => none
    createHeightField := fun _ => none }

/-- A second geodetic tile source. -/
def srcGeo2 : TileSource :=
  { name := "geo2"
    profile := ProfileType.GLOBAL_GEODETIC
    createImage := fun _ => none
    createHeightField := fun _ => none }

/-- A mercator tile source. -/
def srcMerc : TileSource :=
  { name := "merc"
    profile := ProfileType.GLOBAL_MERCATOR
    createImage := fun _ => none
    createHeightField := fun _ => none }

/-- A projected-custom tile source. -/
def srcProj : TileSource :=
  { name := "proj"
    profile := ProfileType.PROJECTED
    createImage := fun _ => none
    createHeightField := fun _ => none }

/-- A source with image data at the root level only. -/
def srcRootImage : TileSource :=
  { name := "rootimg"
    profile := ProfileType.GLOBAL_GEODETIC
    createImage := fun k => if k.level = 0 then some imgA else none
    createHeightField := fun _ => none }

/-- A source with elevation data at level 1 only. -/
def srcLevelOneHF : TileSource :=
  { name := "hfone"
    profile := ProfileType.GLOBAL_GEODETIC
    createImage := fun _ => none
    createHeightField := fun k => if k.level = 1 then some hfA else none }

/-- A source with data everywhere. -/
def srcDirect : TileSource :=
  { name := "direct"
    profile := ProfileType.GLOBAL_GEODETIC
    createImage := fun _ => some imgA
    createHeightField := fun _ => some hfA }

/-- A source with no data anywhere. -/
def srcEmpty : TileSource :=
  { name := "empty"
    profile := ProfileType.GLOBAL_GEODETIC
    createImage := fun _ => none
    createHeightField := fun _ => none }

theorem createParentKey_level_lt {k p : TileKey} (h : k.createParentKey = some p) :
    p.level < k.level := by
  unfold TileKey.createParentKey at h
  by_cases hl : k.level = 0
  · simp [hl] at h
  · simp only [hl, if_false] at h
    cases h
    show k.level - 1 < k.level
    omega

theorem createParentKey_none_iff (k : TileKey) :
    k.createParentKey = none ↔ k.level = 0 := by
  unfold TileKey.createParentKey
  by_cases hl : k.level = 0 <;> simp [hl]

theorem isCachedLoop_eq_all (key : TileKey) (ls : List MapLayer) :
    isCachedLoop key ls = ls.all (mapLayerVerdict key) := by
  induction ls with
  | nil => rfl
  | cons l rest ih =>
    cases l with
    | other => simpa [isCachedLoop, mapLayerVerdict] using ih
    | terrain t =>
      simp only [isCachedLoop, List.all_cons, mapLayerVerdict, layerRuleVerdict]
      cases hts : t.tileSource <;> split_ifs <;> simp_all

theorem walkParents_some {α : Type} (f : TileKey → Option α) (k : TileKey) (v : α)
    (h : f k = some v) : walkParents f k = some (v, k) := by
  rw [walkParents, h]

theorem walkParents_none_parent {α : Type} (f : TileKey → Option α) (k p : TileKey)
    (h : f k = none) (hp : k.createParentKey = some p) :
    walkParents f k = walkParents f p := by
  rw [walkParents, h]
  split
  · rename_i v hv
    cases hv
  · split
    · rename_i p' hp'
      rw [hp] at hp'
      cases hp'
      rfl
    · rename_i hp'
      rw [hp] at hp'
      cases hp'

theorem walkParents_none_root {α : Type} (f : TileKey → Option α) (k : TileKey)
    (h : f k = none) (hp : k.createParentKey = none) :
    walkParents f k = none := by
  rw [walkParents, h]
  split
  · rename_i v hv
    cases hv
  · split
    · rename_i p' hp'
      rw [hp] at hp'
      cases hp'
    · rfl

theorem ancestorChain_cons {k p : TileKey} (h : k.createParentKey = some p) :
    ancestorChain k = k :: ancestorChain p := by
  rw [ancestorChain]
  split
  · rename_i p' hp'
    rw [h] at hp'
    cases hp'
    rfl
  · rename_i hp'
    rw [h] at hp'
    cases hp'

theorem ancestorChain_root {k : TileKey} (h : k.createParentKey = none) :
    ancestorChain k = [k] := by
  rw [ancestorChain]
  split
  · rename_i p' hp'
    rw [h] at hp'
    cases hp'
  · rfl

theorem walkParents_eq_firstSuccess_aux {α : Type} (f : TileKey → Option α) :
    ∀ n (k : TileKey), k.level ≤ n →
      walkParents f k = firstSuccess f (ancestorChain k) := by
  intro n
  induction n with
  | zero =>
    intro k hk
    have hroot : k.createParentKey = none :=
      (createParentKey_none_iff k).2 (Nat.le_zero.1 hk)
    rw [ancestorChain_root hroot]
    cases hf : f k with
    | some v => rw [walkParents_some f k v hf]; simp [firstSuccess, hf]
    | none => rw [walkParents_none_root f k hf hroot]; simp [firstSuccess, hf]
  | succ m ih =>
    intro k hk
    cases hf : f k with
    | some v =>
      cases hp : k.createParentKey with
      | some p =>
        rw [ancestorChain_cons hp, walkParents_some f k v hf]
        simp [firstSuccess, hf]
      | none =>
        rw [ancestorChain_root hp, walkParents_some f k v hf]
        simp [firstSuccess, hf]
    | none =>
      cases hp : k.createParentKey with
      | some p =>
        rw [ancestorChain_cons hp, walkParents_none_parent f k p hf hp]
        simp only [firstSuccess, hf]
        exact ih p (by have := createParentKey_level_lt hp; omega)
      | none =>
        rw [ancestorChain_root hp, walkParents_none_root f k hf hp]
        simp [firstSuccess, hf]

theorem walkParents_eq_firstSuccess {α : Type} (f : TileKey → Option α) (k : TileKey) :
    walkParents f k = firstSuccess f (ancestorChain k) :=
  walkParents_eq_firstSuccess_aux f k.level k le_rfl

theorem firstSuccess_eq_none_iff {α : Type} (f : TileKey → Option α) (l : List TileKey) :
    firstSuccess f l = none ↔ ∀ a ∈ l, f a = none := by
  induction l with
  | nil => simp [firstSuccess]
  | cons k rest ih =>
    cases hf : f k with
    | some v => simp [firstSuccess, hf]
    | none => simp [firstSuccess, hf, ih]

theorem walkParents_level_le_aux {α : Type} (f : TileKey → Option α) :
    ∀ n (k : TileKey), k.level ≤ n → ∀ v pk,
      walkParents f k = some (v, pk) → pk.level ≤ k.level := by
  intro n
  induction n with
  | zero =>
    intro k hk v pk h
    have hroot : k.createParentKey = none :=
      (createParentKey_none_iff k).2 (Nat.le_zero.1 hk)
    cases hf : f k with
    | some w =>
      rw [walkParents_some f k w hf] at h
      cases h
      exact le_rfl
    | none => rw [walkParents_none_root f k hf hroot] at h; cases h
  | succ m ih =>
    intro k hk v pk h
    cases hf : f k with
    | some w =>
      rw [walkParents_some f k w hf] at h
      cases h
      exact le_rfl
    | none =>
      cases hp : k.createParentKey with
      | some p =>
        rw [walkParents_none_parent f k p hf hp] at h
        have hlt := createParentKey_level_lt hp
        have := ih p (by omega) v pk h
        omega
      | none => rw [walkParents_none_root f k hf hp] at h; cases h

theorem walkParents_level_le {α : Type} (f : TileKey → Option α) (k : TileKey)
    (v : α) (pk : TileKey) (h : walkParents f k = some (v, pk)) :
    pk.level ≤ k.level :=
  walkParents_level_le_aux f k.level k le_rfl v pk h

theorem iterParent_none (n : Nat) : iterParent n none = none := by
  induction n with
  | zero => rfl
  | succ m ih => simpa [iterParent] using ih

theorem iterParent_succ_bind (n : Nat) (ok : Option TileKey) :
    iterParent (n + 1) ok = (iterParent n ok).bind TileKey.createParentKey := by
  induction n generalizing ok with
  | zero => rfl
  | succ m ih =>
    show iterParent (m + 1) (ok.bind TileKey.createParentKey) = _
    rw [ih (ok.bind TileKey.createParentKey)]
    rfl

theorem iterParent_reaches_root :
    ∀ n (k : TileKey), k.level = n →
      ∃ r : TileKey, iterParent n (some k) = some r ∧ r.level = 0 := by
  intro n
  induction n with
  | zero => intro k hk; exact ⟨k, rfl, hk⟩
  | succ m ih =>
    intro k hk
    have hne : ¬ k.level = 0 := by omega
    have hp : k.createParentKey = some ⟨k.level - 1, k.col / 2, k.row / 2⟩ := by
      unfold TileKey.createParentKey
      simp [hne]
    have hlev : (TileKey.mk (k.level - 1) (k.col / 2) (k.row / 2)).level = m := by
      show k.level - 1 = m
      omega
    obtain ⟨r, hr, hr0⟩ := ih _ hlev
    refine ⟨r, ?_, hr0⟩
    show iterParent m k.createParentKey = some r
    rw [hp]
    exact hr

theorem ancestorChain_length :
    ∀ n (k : TileKey), k.level = n → (ancestorChain k).length = k.level + 1 := by
  intro n
  induction n with
  | zero =>
    intro k hk
    rw [ancestorChain_root ((createParentKey_none_iff k).2 hk), hk]
    rfl
  | succ m ih =>
    intro k hk
    have hne : ¬ k.level = 0 := by omega
    have hp : k.createParentKey = some ⟨k.level - 1, k.col / 2, k.row / 2⟩ := by
      unfold TileKey.createParentKey
      simp [hne]
    have hlev : (TileKey.mk (k.level - 1) (k.col / 2) (k.row / 2)).level = m := by
      show k.level - 1 = m
      omega
    rw [ancestorChain_cons hp]
    simp only [List.length_cons, ih _ hlev, hlev]
    omega

theorem reconcileImageSources_of_ne_unknown (p : ProfileType)
    (hp : p ≠ ProfileType.UNKNOWN) (l : List TileSource) :
    reconcileImageSources p l =
      (p, l.filter (fun t =>
        decide (t.profile = p) ||
        (decide (p = ProfileType.GLOBAL_GEODETIC) &&
          decide (t.profile = ProfileType.GLOBAL_MERCATOR)))) := by
  induction l with
  | nil => simp [reconcileImageSources]
  | cons s rest ih =>
    by_cases hc : p ≠ s.profile ∧
        ¬(p = ProfileType.GLOBAL_GEODETIC ∧ s.profile = ProfileType.GLOBAL_MERCATOR)
    · have hpred : (decide (s.profile = p) ||
          (decide (p = ProfileType.GLOBAL_GEODETIC) &&
            decide (s.profile = ProfileType.GLOBAL_MERCATOR))) = false := by
        obtain ⟨h1, h2⟩ := hc
        have e1 : decide (s.profile = p) = false :=
          decide_eq_false (fun he => h1 he.symm)
        by_cases hg : p = ProfileType.GLOBAL_GEODETIC
        · have e2 : decide (s.profile = ProfileType.GLOBAL_MERCATOR) = false :=
            decide_eq_false (fun hm => h2 ⟨hg, hm⟩)
          rw [e1, e2]
          simp
        · have e2 : decide (p = ProfileType.GLOBAL_GEODETIC) = false :=
            decide_eq_false hg
          rw [e1, e2]
          simp
      rw [reconcileImageSources, if_neg hp, if_pos hc]
      simp [ih, List.filter_cons, hpred]
    · have hpred : (decide (s.profile = p) ||
          (decide (p = ProfileType.GLOBAL_GEODETIC) &&
            decide (s.profile = ProfileType.GLOBAL_MERCATOR))) = true := by
        push_neg at hc
        by_cases he : p = s.profile
        · rw [decide_eq_true he.symm]
          simp
        · obtain ⟨hg, hm⟩ := hc he
          rw [decide_eq_true hg, decide_eq_true hm]
          simp
      rw [reconcileImageSources, if_neg hp, if_neg hc]
      simp [ih, List.filter_cons, hpred]

theorem reconcileHeightFieldSources_of_ne_unknown (p : ProfileType)
    (hp : p ≠ ProfileType.UNKNOWN) (l : List TileSource) :
    reconcileHeightFieldSources p l =
      (p, l.filter (fun t => decide (t.profile = p))) := by
  induction l with
  | nil => simp [reconcileHeightFieldSources]
  | cons s rest ih =>
    by_cases hc : p ≠ s.profile
    · have hpred : decide (s.profile = p) = false :=
        decide_eq_false (fun he => hc he.symm)
      rw [reconcileHeightFieldSources, if_neg hp, if_pos hc]
      simp [ih, List.filter_cons, hpred]
    · have he : p = s.profile := not_not.1 hc
      have hpred : decide (s.profile = p) = true := decide_eq_true he.symm
      rw [reconcileHeightFieldSources, if_neg hp, if_neg hc]
      simp [ih, List.filter_cons, hpred]

theorem createValidImage_eq_walk (src : TileSource) (key : TileKey) :
    TileBuilder.createValidImage src key = walkParents src.createImage key := by
  unfold TileBuilder.createValidImage
  cases hf : src.createImage key with
  | some image => rw [walkParents_some src.createImage key image hf]
  | none =>
    cases hp : key.createParentKey with
    | some pk => rw [walkParents_none_parent src.createImage key pk hf hp]
    | none => rw [walkParents_none_root src.createImage key hf hp]

theorem createValidHeightField_none_iff (src : TileSource) (key : TileKey) :
    TileBuilder.createValidHeightField src key = none ↔
      walkParents src.createHeightField key = none := by
  unfold TileBuilder.createValidHeightField
  cases hf : src.createHeightField key with
  | some hf0 =>
    rw [walkParents_some src.createHeightField key hf0 hf]
    simp [hf]
  | none =>
    cases hp : key.createParentKey with
    | some pk =>
      rw [walkParents_none_parent src.createHeightField key pk hf hp]
      simp only [hf, hp]
      cases hw : walkParents src.createHeightField pk with
      | some pr =>
        cases pr
        simp [hw]
      | none => simp [hw]
    | none =>
      rw [walkParents_none_root src.createHeightField key hf hp]
      simp [hf, hp]

/-- Claim C1, counterexample to the statement as written: with a live map
that has no map-level cache object, no layer forces `false` (the single
layer passes every rule and its key is cached), yet `isCached` returns
`false`, so the conjunct "if no layer forced false, the verdict is true"
fails without a guard on the map-level cache. -/
theorem isCached_rule_order_counterexample :
    (MapFrame.mk true false [MapLayer.terrain layerGood]).layers.all
      (mapLayerVerdict keyA) = true ∧
    (MapFrame.mk true false [MapLayer.terrain layerGood]).isCached keyA = false :=
  ⟨rfl, rfl⟩

/-- Claim C1 (amended): provided the map-level cache guard passes (the map
reference is expired, or the map has a cache object), `MapFrame::isCached`
evaluates each layer by the claimed rules (1)-(7) in exactly the claimed
priority order — the first applicable rule deciding that layer, as
written out by `layerRuleVerdict` — and the verdict is `true` exactly when
no layer forced `false`. -/
theorem isCached_rule_order (f : MapFrame) (key : TileKey)
    (hguard : f.mapAlive = true → f.mapHasCache = true) :
    f.isCached key = f.layers.all (mapLayerVerdict key) := by
  unfold MapFrame.isCached
  have hg : (f.mapAlive && !f.mapHasCache) = false := by
    cases ha : f.mapAlive
    · simp
    · simp [hguard ha]
  rw [hg, if_neg Bool.false_ne_true]
  exact isCachedLoop_eq_all key f.layers

/-- Witness for the amended claim C1 at a concrete frame. -/
theorem isCached_rule_order_witness :
    (MapFrame.mk true true [MapLayer.terrain layerGood, MapLayer.other,
      MapLayer.terrain layerDisabledOnly]).isCached keyA =
    (MapFrame.mk true true [MapLayer.terrain layerGood, MapLayer.other,
      MapLayer.terrain layerDisabledOnly]).layers.all (mapLayerVerdict keyA) :=
  isCached_rule_order _ keyA (fun _ => rfl)

/-- Claim C3, counterexample to the statement as written: an empty layer
set does not always yield `true` — a live map with no map-level cache
object yields `false` before any layer is considered. -/
theorem isCached_empty_layers_counterexample :
    (MapFrame.mk true false ([] : List MapLayer)).isCached keyA = false := rfl

/-- Claim C3 (amended): an enabled terrain layer with the cache-disabled
policy forces `isCached` to `false` regardless of every other layer, and
— provided the map-level cache guard passes — an empty layer set, or one
whose terrain layers are all disabled, yields `true`. -/
theorem isCached_cacheDisabled_poisons (f : MapFrame) (key : TileKey) :
    ((∃ t : TerrainLayer, MapLayer.terrain t ∈ f.layers ∧ t.enabled = true ∧
        t.cachePolicy = CachePolicy.cacheDisabled) → f.isCached key = false) ∧
    ((f.mapAlive = true → f.mapHasCache = true) →
      (∀ t : TerrainLayer, MapLayer.terrain t ∈ f.layers → t.enabled = false) →
      f.isCached key = true) := by
  constructor
  · rintro ⟨t, htmem, hen, hpol⟩
    unfold MapFrame.isCached
    by_cases hg : (f.mapAlive && !f.mapHasCache) = true
    · rw [if_pos hg]
    · rw [if_neg hg, isCachedLoop_eq_all]
      refine List.all_eq_false.2 ⟨MapLayer.terrain t, htmem, ?_⟩
      simp [mapLayerVerdict, layerRuleVerdict, hen, hpol,
        CachePolicy.isCacheOnly, CachePolicy.isCacheDisabled]
  · intro hguard hall
    unfold MapFrame.isCached
    have hg : (f.mapAlive && !f.mapHasCache) = false := by
      cases ha : f.mapAlive
      · simp
      · simp [hguard ha]
    rw [hg, if_neg Bool.false_ne_true, isCachedLoop_eq_all]
    refine List.all_eq_true.2 ?_
    intro l hl
    cases l with
    | other => rfl
    | terrain t =>
      have hdis := hall t hl
      simp [mapLayerVerdict, layerRuleVerdict, hdis]

/-- Witness for the amended claim C3: a frame with a good layer and a
cache-disabled layer is `false`; a frame whose only terrain layer is
disabled is `true`. -/
theorem isCached_cacheDisabled_poisons_witness :
    (MapFrame.mk true true [MapLayer.terrain layerGood,
      MapLayer.terrain layerNoCache]).isCached keyA = false ∧
    (MapFrame.mk false true [MapLayer.terrain layerDisabledOnly,
      MapLayer.other]).isCached keyA = true := by
  constructor
  · refine (isCached_cacheDisabled_poisons _ keyA).1 ⟨layerNoCache, ?_, rfl, rfl⟩
    simp
  · refine (isCached_cacheDisabled_poisons _ keyA).2 (fun hmap => by cases hmap) ?_
    intro t ht
    simp only [List.mem_cons, List.mem_singleton] at ht
    rcases ht with ht | ht | ht
    · cases ht
      rfl
    · cases ht
    · cases ht

/-- Claim C9: when the map reference can still be locked but the map has
no map-level cache object, `MapFrame::isCached` returns `false` for every
key and every layer list, before examining any layer. -/
theorem isCached_no_map_cache (f : MapFrame) (key : TileKey)
    (h1 : f.mapAlive = true) (h2 : f.mapHasCache = false) :
    f.isCached key = false := by
  unfold MapFrame.isCached
  rw [h1, h2]
  rfl

/-- Witness for claim C9. -/
theorem isCached_no_map_cache_witness :
    (MapFrame.mk true false [MapLayer.terrain layerNoCache,
      MapLayer.other]).isCached keyA = false :=
  isCached_no_map_cache _ keyA rfl rfl

/-- Claim C2, counterexample to the statement as written: with no image
sources and heightfield sources [geodetic, mercator], the running result
seeds geodetic-global, and the mercator source is nonetheless removed —
the heightfield loop grants no geodetic-mercator exception, so the claim
fails on that ordered source list. -/
theorem getDataProfile_hf_exception_counterexample :
    (TileBuilder.getDataProfile
        ⟨[], [srcGeo, srcMerc], ProfileType.UNKNOWN, false, false⟩).1 =
      ProfileType.GLOBAL_GEODETIC ∧
    (TileBuilder.getDataProfile
        ⟨[], [srcGeo, srcMerc],
          ProfileType.UNKNOWN, false, false⟩).2.heightfield_sources =
      [srcGeo] :=
  ⟨rfl, rfl⟩

/-- Claim C2 (amended): with no profile override and the profile not yet
computed, `getDataProfile` seeds the result with the first image source
profile and never changes it afterwards; a subsequent image source is
retained exactly when its profile equals the result or the result is
geodetic-global and the source is mercator-global, while a heightfield
source is retained exactly when its profile equals the result — the
compatibility exception applies to image sources only. -/
theorem getDataProfile_reconciliation (b : TileBuilder) (s : TileSource)
    (rest : List TileSource)
    (h0 : b.profileComputed = false)
    (h1 : b.dataProfile = ProfileType.UNKNOWN)
    (h2 : b.image_sources = s :: rest)
    (h3 : s.profile ≠ ProfileType.UNKNOWN) :
    (TileBuilder.getDataProfile b).1 = s.profile ∧
    (TileBuilder.getDataProfile b).2.image_sources =
      s :: rest.filter (fun t =>
        decide (t.profile = s.profile) ||
        (decide (s.profile = ProfileType.GLOBAL_GEODETIC) &&
          decide (t.profile = ProfileType.GLOBAL_MERCATOR))) ∧
    (TileBuilder.getDataProfile b).2.heightfield_sources =
      b.heightfield_sources.filter (fun t => decide (t.profile = s.profile)) := by
  have hri : reconcileImageSources b.dataProfile b.image_sources =
      (s.profile, s :: rest.filter (fun t =>
        decide (t.profile = s.profile) ||
        (decide (s.profile = ProfileType.GLOBAL_GEODETIC) &&
          decide (t.profile = ProfileType.GLOBAL_MERCATOR)))) := by
    rw [h1, h2, reconcileImageSources, if_pos rfl,
      reconcileImageSources_of_ne_unknown s.profile h3 rest]
  have hrh := reconcileHeightFieldSources_of_ne_unknown s.profile h3 b.heightfield_sources
  unfold TileBuilder.getDataProfile
  rw [h0, if_neg Bool.false_ne_true]
  simp [hri, hrh]

/-- Witness for the amended claim C2: image sources
[geodetic, mercator, projected] keep the mercator source and drop the
projected one; of heightfield sources [geodetic, mercator] only the
geodetic one is kept. -/
theorem getDataProfile_reconciliation_witness :
    (TileBuilder.getDataProfile
        ⟨[srcGeo, srcMerc, srcProj], [srcGeo2, srcMerc],
          ProfileType.UNKNOWN, false, false⟩).1 = srcGeo.profile ∧
    (TileBuilder.getDataProfile
        ⟨[srcGeo, srcMerc, srcProj], [srcGeo2, srcMerc],
          ProfileType.UNKNOWN, false, false⟩).2.image_sources =
      srcGeo :: [srcMerc, srcProj].filter (fun t =>
        decide (t.profile = srcGeo.profile) ||
        (decide (srcGeo.profile = ProfileType.GLOBAL_GEODETIC) &&
          decide (t.profile = ProfileType.GLOBAL_MERCATOR))) ∧
    (TileBuilder.getDataProfile
        ⟨[srcGeo, srcMerc, srcProj], [srcGeo2, srcMerc],
          ProfileType.UNKNOWN, false, false⟩).2.heightfield_sources =
      [srcGeo2, srcMerc].filter (fun t => decide (t.profile = srcGeo.profile)) :=
  getDataProfile_reconciliation _ srcGeo [srcMerc, srcProj] rfl rfl rfl (by decide)

/-- Claim C6: `TileBuilder::isValid` returns `false` exactly when the
builder has no image and no heightfield sources, or the reconciled
profile is UNKNOWN, or the reconciled profile is PROJECTED while the map
demands geocentric rendering; otherwise `true`. -/
theorem isValid_false_iff (b : TileBuilder) :
    b.isValid = false ↔
      (b.image_sources = [] ∧ b.heightfield_sources = []) ∨
      (TileBuilder.getDataProfile b).1 = ProfileType.UNKNOWN ∨
      ((TileBuilder.getDataProfile b).1 = ProfileType.PROJECTED ∧
        b.mapGeocentric = true) := by
  unfold TileBuilder.isValid
  split_ifs with hempty hproj hunk
  · simp only [List.length_eq_zero] at hempty
    simp [hempty.1, hempty.2]
  · simp [hproj]
  · simp [hunk]
  · constructor
    · intro h
      simp at h
    · rintro (⟨ha, hb⟩ | hu | hpg)
      · exact absurd ⟨by simp [ha], by simp [hb]⟩ hempty
      · exact absurd hu hunk
      · exact absurd hpg hproj

/-- Claim C4: ancestor resolution first attempts direct production at the
requested key; on failure it retries at successive parent keys, stopping
at the first success, and returns an absent result exactly when every key
on the chain up to the root failed; a direct hit returns the requested
key itself as the producing key. -/
theorem ancestor_resolution (src : TileSource) (key : TileKey) :
    TileBuilder.createValidImage src key =
      firstSuccess src.createImage (ancestorChain key) ∧
    (TileBuilder.createValidImage src key = none ↔
      ∀ a ∈ ancestorChain key, src.createImage a = none) ∧
    (∀ img : Image, src.createImage key = some img →
      TileBuilder.createValidImage src key = some (img, key)) ∧
    (TileBuilder.createValidHeightField src key = none ↔
      ∀ a ∈ ancestorChain key, src.createHeightField a = none) := by
  refine ⟨?_, ?_, ?_, ?_⟩
  · rw [createValidImage_eq_walk, walkParents_eq_firstSuccess]
  · rw [createValidImage_eq_walk, walkParents_eq_firstSuccess,
      firstSuccess_eq_none_iff]
  · intro img himg
    unfold TileBuilder.createValidImage
    rw [himg]
  · rw [createValidHeightField_none_iff, walkParents_eq_firstSuccess,
      firstSuccess_eq_none_iff]

/-- Witness for claim C4 at a source with data everywhere: a direct hit
at the requested key, with the requested key as producing key. -/
theorem ancestor_resolution_witness :
    TileBuilder.createValidImage srcDirect keyA = some (imgA, keyA) :=
  (ancestor_resolution srcDirect keyA).2.2.1 imgA rfl

/-- Claim C5: a direct heightfield hit at the requested key is returned
unmodified; a hit at a proper ancestor is passed through the extractor
for the requested key at the found raster's own column and row counts
(the found resolution), not a separately requested sample size. -/
theorem heightfield_found_resolution (src : TileSource) (key : TileKey) :
    (∀ hf : HeightField, src.createHeightField key = some hf →
      TileBuilder.createValidHeightField src key = some hf) ∧
    (∀ (p : TileKey) (hf : HeightField) (pk : TileKey),
      src.createHeightField key = none →
      key.createParentKey = some p →
      walkParents src.createHeightField p = some (hf, pk) →
      TileBuilder.createValidHeightField src key =
        some (HeightFieldExtractor.extractChild pk hf key
          hf.numColumns hf.numRows) ∧
      pk.level < key.level) := by
  constructor
  · intro hf hhf
    unfold TileBuilder.createValidHeightField
    rw [hhf]
  · intro p hf pk hnone hp hw
    refine ⟨?_, ?_⟩
    · unfold TileBuilder.createValidHeightField
      simp only [hnone, hp, hw]
    · have hle := walkParents_level_le src.createHeightField p hf pk hw
      have hlt := createParentKey_level_lt hp
      omega

/-- Witness for claim C5 at a source with data only at level 1, requested
at a level-2 key. -/
theorem heightfield_found_resolution_witness :
    TileBuilder.createValidHeightField srcLevelOneHF keyA =
      some (HeightFieldExtractor.extractChild ⟨1, 0, 1⟩ hfA keyA
        hfA.numColumns hfA.numRows) ∧
    (TileKey.mk 1 0 1).level < keyA.level := by
  have hw : walkParents srcLevelOneHF.createHeightField ⟨1, 0, 1⟩ =
      some (hfA, ⟨1, 0, 1⟩) :=
    walkParents_some _ _ _ rfl
  exact (heightfield_found_resolution srcLevelOneHF keyA).2 ⟨1, 0, 1⟩ hfA ⟨1, 0, 1⟩
    rfl rfl hw

/-- Claim C7: iterating `createParentKey` from any key reaches a level-0
key in exactly `level` steps and yields an absent result one step later;
the level strictly decreases at each step, and the ancestor chain the
fallback walks is finite with exactly `level + 1` entries — no artificial
depth cap. -/
theorem parent_iteration_terminates (k : TileKey) :
    (∃ r : TileKey, iterParent k.level (some k) = some r ∧ r.level = 0) ∧
    iterParent (k.level + 1) (some k) = none ∧
    (∀ p : TileKey, k.createParentKey = some p → p.level < k.level) ∧
    (ancestorChain k).length = k.level + 1 := by
  obtain ⟨r, hr, hr0⟩ := iterParent_reaches_root k.level k rfl
  refine ⟨⟨r, hr, hr0⟩, ?_, ?_, ancestorChain_length k.level k rfl⟩
  · rw [iterParent_succ_bind, hr]
    show r.createParentKey = none
    exact (createParentKey_none_iff r).2 hr0
  · intro p hp
    exact createParentKey_level_lt hp

/-- Witness for claim C7 at the concrete level-2 key. -/
theorem parent_iteration_terminates_witness :
    iterParent (keyA.level + 1) (some keyA) = none ∧
    (TileKey.mk 1 0 1).level < keyA.level ∧
    (ancestorChain keyA).length = keyA.level + 1 := by
  have h := parent_iteration_terminates keyA
  exact ⟨h.2.1, h.2.2.1 ⟨1, 0, 1⟩ rfl, h.2.2.2⟩

/-- Claim C8: whenever ancestor resolution succeeds, the producing key is
at a level less than or equal to the requested key — only the requested
key and its ancestors are tried, never descendants. -/
theorem producing_key_never_descendant (src : TileSource) (key : TileKey) :
    (∀ (img : Image) (pk : TileKey),
      TileBuilder.createValidImage src key = some (img, pk) →
      pk.level ≤ key.level) ∧
    (∀ (p : TileKey) (hf : HeightField) (pk : TileKey),
      key.createParentKey = some p →
      walkParents src.createHeightField p = some (hf, pk) →
      pk.level ≤ key.level) := by
  constructor
  · intro img pk h
    rw [createValidImage_eq_walk] at h
    exact walkParents_level_le src.createImage key img pk h
  · intro p hf pk hp hw
    have hle := walkParents_level_le src.createHeightField p hf pk hw
    have hlt := createParentKey_level_lt hp
    omega

/-- Witness for claim C8: an image resolved at the root from a level-2
request, and a heightfield walk resolved at level 1. -/
theorem producing_key_never_descendant_witness :
    (TileKey.mk 0 0 0).level ≤ keyA.level ∧
    (TileKey.mk 1 0 1).level ≤ keyA.level := by
  have hsome : TileBuilder.createValidImage srcRootImage keyA =
      some (imgA, ⟨0, 0, 0⟩) := by
    rw [createValidImage_eq_walk,
      walkParents_none_parent srcRootImage.createImage keyA ⟨1, 0, 1⟩ rfl rfl,
      walkParents_none_parent srcRootImage.createImage ⟨1, 0, 1⟩ ⟨0, 0, 0⟩ rfl rfl,
      walkParents_some srcRootImage.createImage ⟨0, 0, 0⟩ imgA rfl]
  have hw : walkParents srcLevelOneHF.createHeightField ⟨1, 0, 1⟩ =
      some (hfA, ⟨1, 0, 1⟩) :=
    walkParents_some _ _ _ rfl
  exact ⟨(producing_key_never_descendant srcRootImage keyA).1 imgA ⟨0, 0, 0⟩ hsome,
    (producing_key_never_descendant srcLevelOneHF keyA).2 ⟨1, 0, 1⟩ hfA ⟨1, 0, 1⟩
      rfl hw⟩

/-- Claim C10: when `createValidImage` returns `false`, the
caller-supplied image/key pair is returned unchanged; the pair is
overwritten with the resolved image and producing key exactly when the
function returns `true`. -/
theorem imageRef_unchanged_on_failure (src : TileSource) (key : TileKey)
    (t : Image × TileKey) :
    ((TileBuilder.createValidImageRef src key t).1 = false →
      (TileBuilder.createValidImageRef src key t).2 = t) ∧
    ((TileBuilder.createValidImageRef src key t).1 = false ↔
      TileBuilder.createValidImage src key = none) ∧
    (∀ (img : Image) (pk : TileKey),
      TileBuilder.createValidImage src key = some (img, pk) →
      TileBuilder.createValidImageRef src key t = (true, (img, pk))) := by
  have hrel : TileBuilder.createValidImageRef src key t =
      match TileBuilder.createValidImage src key with
      | some (img, pk) => (true, (img, pk))
      | none => (false, t) := by
    unfold TileBuilder.createValidImageRef TileBuilder.createValidImage
    cases hf : src.createImage key with
    | some image => rfl
    | none =>
      cases hp : key.createParentKey with
      | some pk =>
        cases hw : walkParents src.createImage pk with
        | some pr =>
          cases pr
          rfl
        | none => rfl
      | none => rfl
  refine ⟨?_, ?_, ?_⟩
  · intro hfalse
    rw [hrel] at hfalse ⊢
    cases hv : TileBuilder.createValidImage src key with
    | none => rfl
    | some pr =>
      cases pr
      rw [hv] at hfalse
      simp at hfalse
  · rw [hrel]
    cases hv : TileBuilder.createValidImage src key with
    | none => simp
    | some pr =>
      cases pr
      simp [hv]
  · intro img pk hsome
    rw [hrel, hsome]

/-- Witness for claim C10: a source with no data anywhere leaves the
output pair untouched. -/
theorem imageRef_unchanged_on_failure_witness :
    (TileBuilder.createValidImageRef srcEmpty keyA (imgA, keyA)).2 = (imgA, keyA) ∧
    ((TileBuilder.createValidImageRef srcEmpty keyA (imgA, keyA)).1 = false ↔
      TileBuilder.createValidImage srcEmpty keyA = none) := by
  have hnone : TileBuilder.createValidImage srcEmpty keyA = none := by
    rw [createValidImage_eq_walk,
      walkParents_none_parent srcEmpty.createImage keyA ⟨1, 0, 1⟩ rfl rfl,
      walkParents_none_parent srcEmpty.createImage ⟨1, 0, 1⟩ ⟨0, 0, 0⟩ rfl rfl,
      walkParents_none_root srcEmpty.createImage ⟨0, 0, 0⟩ rfl rfl]
  have h := imageRef_unchanged_on_failure srcEmpty keyA (imgA, keyA)
  exact ⟨h.1 (h.2.1.mpr hnone), h.2.1⟩

end OsgEarth
